import Mathlib

/-!
Verification of the authorization-enforcement core of the hyperspot
`users-info` example: the Decision Matrix, the AccessScope model, the
secure CRUD enforcement layer and the Users / Addresses / Cities domain
services.

The enforcement core itself is not among the provided source files (only
its test suites are), so every definition below is modelled from the
specification (sections 3, 4, 6 and 7) and from the behaviour the test
suites pin down.  Identifiers (UUIDs in the source) are modelled as `Nat`;
the logical column identifiers shared between the policy layer and the
storage layer are a closed enumeration.
-/

namespace UsersInfo

/-- Modelled from the spec: logical column identifiers shared between the
policy layer and the storage layer (§3, Predicate). -/
inductive Field where
  | tenant_id
  | owner_id
  | city_id
  deriving DecidableEq, Repr

/-- Modelled from the spec: a single filter clause, `Eq(field, value)` or
`In(field, set-of-values)` (§3, Predicate). -/
inductive Predicate where
  | Eq (field : Field) (value : Nat)
  | In (field : Field) (values : List Nat)
  deriving DecidableEq, Repr

/-- Modelled from the spec: caller identity — optional subject, the set of
tenant identifiers the caller may act within (empty = anonymous), and a
root flag (§3, SecurityContext). -/
structure SecurityContext where
  subject : Option Nat
  tenants : List Nat
  root : Bool
  deriving DecidableEq, Repr

/-- Modelled from the spec: result of a policy evaluation — `allow` plus an
ordered sequence of constraint predicates (§3, PolicyDecision). -/
structure PolicyDecision where
  allow : Bool
  constraints : List Predicate
  deriving DecidableEq, Repr

/-- Modelled from the spec: one PDP call returns either a decision or an
evaluation failure (§6, Policy client). -/
abbrev PolicyEvalResult := Except Unit PolicyDecision

/-- Modelled from the spec: the external policy client, a function from the
caller's context and the resource properties of the policy query to a
decision or an evaluation failure (§6). -/
abbrev PolicyClient := SecurityContext → List (Field × Nat) → PolicyEvalResult

/-- Modelled from the spec: the enforceable conjunctive filter for one
operation (§3, AccessScope). -/
abbrev AccessScope := List Predicate

/-- Modelled from the spec: the two denial reasons of the Decision Matrix
(§4.1). -/
inductive DenyReason where
  | denied
  | constraintsRequiredButAbsent
  deriving DecidableEq, Repr

/-- Modelled from the spec: the Decision Matrix output — exactly one of
Allow(scope), Deny(reason) or Error (§4.1). -/
inductive DecisionOutcome where
  | allow (scope : AccessScope)
  | deny (reason : DenyReason)
  | evalError
  deriving DecidableEq, Repr

/-- Modelled from the spec: the tenant baseline predicate, always present
unless the caller is root (§3 AccessScope, §4.2). -/
def tenant_baseline (ctx : SecurityContext) : AccessScope :=
  if ctx.root then [] else [Predicate.In Field.tenant_id ctx.tenants]

/-- Modelled from the spec: the Decision Matrix (§4.1), in the mandated
rule order — evaluation failure first, then `allow = false`, then
`require_constraints` with an empty constraint list, else Allow with
scope = tenant baseline AND the decision's constraints. -/
def decision_matrix (res : PolicyEvalResult) (require_constraints : Bool)
    (ctx : SecurityContext) : DecisionOutcome :=
  match res with
  | Except.error _ => DecisionOutcome.evalError
  | Except.ok d =>
    if d.allow = false then DecisionOutcome.deny DenyReason.denied
    else if require_constraints && d.constraints.isEmpty then
      DecisionOutcome.deny DenyReason.constraintsRequiredButAbsent
    else DecisionOutcome.allow (tenant_baseline ctx ++ d.constraints)

/-- Modelled from the spec: the public error taxonomy (§7). -/
inductive DomainError where
  | Forbidden
  | NotFound
  | InternalError
  | Validation
  deriving DecidableEq, Repr

/-- A stored user row (tenant-scoped entity, §3 Entities). -/
structure UserRow where
  id : Nat
  tenant_id : Nat
  email : String
  display_name : String
  deriving DecidableEq, Repr

/-- A stored city row (tenant-scoped entity, §3 Entities). -/
structure CityRow where
  id : Nat
  tenant_id : Nat
  name : String
  country : String
  deriving DecidableEq, Repr

/-- A stored address row: tenant-scoped, carrying an owner reference
(`user_id`) and a location reference (`city_id`) (§3 Entities). -/
structure AddressRow where
  id : Nat
  tenant_id : Nat
  user_id : Nat
  city_id : Nat
  street : String
  postal_code : String
  deriving DecidableEq, Repr

/-- The valuation of logical fields on a user row. -/
def user_field (u : UserRow) : Field → Option Nat
  | Field.tenant_id => some u.tenant_id
  | Field.owner_id => none
  | Field.city_id => none

/-- The valuation of logical fields on a city row. -/
def city_field (c : CityRow) : Field → Option Nat
  | Field.tenant_id => some c.tenant_id
  | Field.owner_id => none
  | Field.city_id => none

/-- The valuation of logical fields on an address row: the logical
`owner_id` is the stored `user_id` column. -/
def address_field (a : AddressRow) : Field → Option Nat
  | Field.tenant_id => some a.tenant_id
  | Field.owner_id => some a.user_id
  | Field.city_id => some a.city_id

/-- Modelled from the spec: whether one predicate holds of a row, given the
row's valuation of logical fields.  A predicate over a field the row does
not carry is vacuously satisfied (§4.3: every scope-relevant field present
in the row is checked against every applicable predicate). -/
def pred_holds (fv : Field → Option Nat) : Predicate → Bool
  | Predicate.Eq f v =>
    match fv f with
    | some x => x == v
    | none => true
  | Predicate.In f vs =>
    match fv f with
    | some x => vs.contains x
    | none => true

/-- A row satisfies an AccessScope when it satisfies every predicate of the
scope (§4.2: all predicates are conjunctive). -/
def in_scope (scope : AccessScope) (fv : Field → Option Nat) : Bool :=
  scope.all (pred_holds fv)

/-- The backing store.  `scoped_accesses` counts every enforced storage
operation (validated insert, scoped read / list / update / delete);
advisory prefetches (§4.4 step 1) are informational and not counted. -/
structure Store where
  users : List UserRow
  cities : List CityRow
  addresses : List AddressRow
  next_id : Nat
  scoped_accesses : Nat
  deriving DecidableEq, Repr

/-- Record one enforced storage access. -/
def bump (s : Store) : Store :=
  { s with scoped_accesses := s.scoped_accesses + 1 }

/-- Modelled from the spec: scoped list over users — the store's rows
filtered by the AccessScope (§4.3, §6 storage primitives). -/
def list_scoped_users (scope : AccessScope) (s : Store) : List UserRow × Store :=
  (s.users.filter (fun u => in_scope scope (user_field u)), bump s)

/-- Modelled from the spec: scoped read of one user — the primary-key
lookup ANDed with the AccessScope (§4.3). -/
def find_scoped_user (key : Nat) (scope : AccessScope) (s : Store) :
    Option UserRow × Store :=
  (s.users.find? (fun u => u.id == key && in_scope scope (user_field u)), bump s)

/-- Modelled from the spec: validated insert of a user — every field of the
new row is checked against the AccessScope before writing; on violation
nothing is written (§4.3, §6 `insert_validated`). -/
def insert_validated_user (u : UserRow) (scope : AccessScope) (s : Store) :
    Except Unit UserRow × Store :=
  if in_scope scope (user_field u) then
    (Except.ok u, { (bump s) with users := s.users ++ [u] })
  else (Except.error (), bump s)

/-- Modelled from the spec: scoped update of one user — the primary-key
match is ANDed with the AccessScope against the row's current values; the
affected row (after update) is returned, `none` when zero rows match
(§4.3, §6 `update_scoped`). -/
def update_scoped_user (key : Nat) (f : UserRow → UserRow) (scope : AccessScope)
    (s : Store) : Option UserRow × Store :=
  match s.users.find? (fun u => u.id == key && in_scope scope (user_field u)) with
  | none => (none, bump s)
  | some u =>
    (some (f u),
     { (bump s) with
       users := s.users.map
         (fun v => if v.id == key && in_scope scope (user_field v) then f v else v) })

/-- Modelled from the spec: scoped delete of one user — returns the number
of rows affected (§4.3, §6 `delete_scoped`). -/
def delete_scoped_user (key : Nat) (scope : AccessScope) (s : Store) :
    Nat × Store :=
  ((s.users.filter (fun u => u.id == key && in_scope scope (user_field u))).length,
   { (bump s) with
     users := s.users.filter (fun u => !(u.id == key && in_scope scope (user_field u))) })

/-- Scoped list over cities (§4.3). -/
def list_scoped_cities (scope : AccessScope) (s : Store) : List CityRow × Store :=
  (s.cities.filter (fun c => in_scope scope (city_field c)), bump s)

/-- Scoped read of one city (§4.3). -/
def find_scoped_city (key : Nat) (scope : AccessScope) (s : Store) :
    Option CityRow × Store :=
  (s.cities.find? (fun c => c.id == key && in_scope scope (city_field c)), bump s)

/-- Validated insert of a city (§4.3). -/
def insert_validated_city (c : CityRow) (scope : AccessScope) (s : Store) :
    Except Unit CityRow × Store :=
  if in_scope scope (city_field c) then
    (Except.ok c, { (bump s) with cities := s.cities ++ [c] })
  else (Except.error (), bump s)

/-- Scoped update of one city (§4.3). -/
def update_scoped_city (key : Nat) (f : CityRow → CityRow) (scope : AccessScope)
    (s : Store) : Option CityRow × Store :=
  match s.cities.find? (fun c => c.id == key && in_scope scope (city_field c)) with
  | none => (none, bump s)
  | some c =>
    (some (f c),
     { (bump s) with
       cities := s.cities.map
         (fun v => if v.id == key && in_scope scope (city_field v) then f v else v) })

/-- Scoped delete of one city (§4.3). -/
def delete_scoped_city (key : Nat) (scope : AccessScope) (s : Store) :
    Nat × Store :=
  ((s.cities.filter (fun c => c.id == key && in_scope scope (city_field c))).length,
   { (bump s) with
     cities := s.cities.filter (fun c => !(c.id == key && in_scope scope (city_field c))) })

/-- Scoped list over addresses (§4.3). -/
def list_scoped_addresses (scope : AccessScope) (s : Store) : List AddressRow × Store :=
  (s.addresses.filter (fun a => in_scope scope (address_field a)), bump s)

/-- Scoped read of one address (§4.3). -/
def find_scoped_address (key : Nat) (scope : AccessScope) (s : Store) :
    Option AddressRow × Store :=
  (s.addresses.find? (fun a => a.id == key && in_scope scope (address_field a)), bump s)

/-- Validated insert of an address (§4.3). -/
def insert_validated_address (a : AddressRow) (scope : AccessScope) (s : Store) :
    Except Unit AddressRow × Store :=
  if in_scope scope (address_field a) then
    (Except.ok a, { (bump s) with addresses := s.addresses ++ [a] })
  else (Except.error (), bump s)

/-- Scoped update of one address: the AccessScope is evaluated against the
row's pre-update values only (§4.3, and the WHERE-clause semantics of the
scoped UPDATE). -/
def update_scoped_address (key : Nat) (f : AddressRow → AddressRow)
    (scope : AccessScope) (s : Store) : Option AddressRow × Store :=
  match s.addresses.find? (fun a => a.id == key && in_scope scope (address_field a)) with
  | none => (none, bump s)
  | some a =>
    (some (f a),
     { (bump s) with
       addresses := s.addresses.map
         (fun v => if v.id == key && in_scope scope (address_field v) then f v else v) })

/-- Scoped delete of one address (§4.3). -/
def delete_scoped_address (key : Nat) (scope : AccessScope) (s : Store) :
    Nat × Store :=
  ((s.addresses.filter (fun a => a.id == key && in_scope scope (address_field a))).length,
   { (bump s) with
     addresses := s.addresses.filter
       (fun a => !(a.id == key && in_scope scope (address_field a))) })

/-- Caller-supplied payload for creating a user. -/
structure NewUser where
  id : Option Nat
  tenant_id : Nat
  email : String
  display_name : String
  deriving DecidableEq, Repr

/-- Caller-supplied patch for updating a user. -/
structure UserPatch where
  email : Option String
  display_name : Option String
  deriving DecidableEq, Repr

/-- Caller-supplied payload for creating a city. -/
structure NewCity where
  id : Option Nat
  tenant_id : Nat
  name : String
  country : String
  deriving DecidableEq, Repr

/-- Caller-supplied patch for updating a city. -/
structure CityPatch where
  name : Option String
  country : Option String
  deriving DecidableEq, Repr

/-- Caller-supplied payload for creating or replacing an address. -/
structure NewAddress where
  id : Option Nat
  tenant_id : Nat
  user_id : Nat
  city_id : Nat
  street : String
  postal_code : String
  deriving DecidableEq, Repr

/-- Apply a user patch to a row. -/
def apply_user_patch (p : UserPatch) (u : UserRow) : UserRow :=
  { u with email := p.email.getD u.email,
           display_name := p.display_name.getD u.display_name }

/-- Apply a city patch to a row. -/
def apply_city_patch (p : CityPatch) (c : CityRow) : CityRow :=
  { c with name := p.name.getD c.name, country := p.country.getD c.country }

/-- Modelled from the spec: the scope-relevant snapshot of one address row
handed to the policy query (§3, ResourceProperties). -/
def addr_props (a : AddressRow) : List (Field × Nat) :=
  [(Field.owner_id, a.user_id), (Field.city_id, a.city_id),
   (Field.tenant_id, a.tenant_id)]

/-- Unrestricted prefetch of a user by primary key (§4.4 step 1 — an
informational read, no authorization and no scoped storage access). -/
def find_user_by_id (s : Store) (uid : Nat) : Option UserRow :=
  s.users.find? (fun u => u.id == uid)

/-- Unrestricted prefetch of an address by primary key (§4.4 step 1). -/
def find_address_by_id (s : Store) (aid : Nat) : Option AddressRow :=
  s.addresses.find? (fun a => a.id == aid)

/-- Unrestricted prefetch of a user's address (§4.4 step 1). -/
def find_address_by_user (s : Store) (uid : Nat) : Option AddressRow :=
  s.addresses.find? (fun a => a.user_id == uid)

/-- Modelled from the spec: `list_users_page` — policy query, Decision
Matrix, then the scoped list (§2 data flow, §6 domain services).  The
OData query argument of the source carries no predicate in the modelled
behaviour and is omitted. -/
def list_users_page (pdp : PolicyClient) (ctx : SecurityContext) (s : Store) :
    Except DomainError (List UserRow) × Store :=
  match decision_matrix (pdp ctx []) true ctx with
  | DecisionOutcome.evalError => (Except.error DomainError.InternalError, s)
  | DecisionOutcome.deny _ => (Except.error DomainError.Forbidden, s)
  | DecisionOutcome.allow scope =>
    let r := list_scoped_users scope s
    (Except.ok r.1, r.2)

/-- Modelled from the spec: `get_user` — policy query, Decision Matrix,
then the scoped read; a row outside scope is reported as NotFound (§4.3
scoped read, no existence disclosure). -/
def get_user (pdp : PolicyClient) (ctx : SecurityContext) (uid : Nat) (s : Store) :
    Except DomainError UserRow × Store :=
  match decision_matrix (pdp ctx []) true ctx with
  | DecisionOutcome.evalError => (Except.error DomainError.InternalError, s)
  | DecisionOutcome.deny _ => (Except.error DomainError.Forbidden, s)
  | DecisionOutcome.allow scope =>
    let r := find_scoped_user uid scope s
    match r.1 with
    | some u => (Except.ok u, r.2)
    | none => (Except.error DomainError.NotFound, r.2)

/-- Modelled from the spec: `create_user` — policy query, Decision Matrix,
then the validated insert (§4.3); a scope violation surfaces as
Forbidden. -/
def create_user (pdp : PolicyClient) (ctx : SecurityContext) (nu : NewUser)
    (s : Store) : Except DomainError UserRow × Store :=
  match decision_matrix (pdp ctx []) true ctx with
  | DecisionOutcome.evalError => (Except.error DomainError.InternalError, s)
  | DecisionOutcome.deny _ => (Except.error DomainError.Forbidden, s)
  | DecisionOutcome.allow scope =>
    let row : UserRow :=
      { id := nu.id.getD s.next_id, tenant_id := nu.tenant_id,
        email := nu.email, display_name := nu.display_name }
    match insert_validated_user row scope s with
    | (Except.ok u, s') => (Except.ok u, { s' with next_id := s'.next_id + 1 })
    | (Except.error _, s') => (Except.error DomainError.Forbidden, s')

/-- Modelled from the spec: `update_user` — policy query, Decision Matrix,
then the scoped update; zero rows affected surfaces as Forbidden-class
(§4.3, §7, §9). -/
def update_user (pdp : PolicyClient) (ctx : SecurityContext) (uid : Nat)
    (p : UserPatch) (s : Store) : Except DomainError UserRow × Store :=
  match decision_matrix (pdp ctx []) true ctx with
  | DecisionOutcome.evalError => (Except.error DomainError.InternalError, s)
  | DecisionOutcome.deny _ => (Except.error DomainError.Forbidden, s)
  | DecisionOutcome.allow scope =>
    let r := update_scoped_user uid (apply_user_patch p) scope s
    match r.1 with
    | some u => (Except.ok u, r.2)
    | none => (Except.error DomainError.Forbidden, r.2)

/-- Modelled from the spec: `delete_user` — policy query, Decision Matrix,
then the scoped delete; zero rows affected surfaces as Forbidden-class
(§4.3, §7, §9). -/
def delete_user (pdp : PolicyClient) (ctx : SecurityContext) (uid : Nat)
    (s : Store) : Except DomainError Unit × Store :=
  match decision_matrix (pdp ctx []) true ctx with
  | DecisionOutcome.evalError => (Except.error DomainError.InternalError, s)
  | DecisionOutcome.deny _ => (Except.error DomainError.Forbidden, s)
  | DecisionOutcome.allow scope =>
    let r := delete_scoped_user uid scope s
    if r.1 == 0 then (Except.error DomainError.Forbidden, r.2)
    else (Except.ok (), r.2)

/-- Modelled from the spec: `list_cities_page` (§6). -/
def list_cities_page (pdp : PolicyClient) (ctx : SecurityContext) (s : Store) :
    Except DomainError (List CityRow) × Store :=
  match decision_matrix (pdp ctx []) true ctx with
  | DecisionOutcome.evalError => (Except.error DomainError.InternalError, s)
  | DecisionOutcome.deny _ => (Except.error DomainError.Forbidden, s)
  | DecisionOutcome.allow scope =>
    let r := list_scoped_cities scope s
    (Except.ok r.1, r.2)

/-- Modelled from the spec: `get_city` (§4.3 scoped read). -/
def get_city (pdp : PolicyClient) (ctx : SecurityContext) (cid : Nat) (s : Store) :
    Except DomainError CityRow × Store :=
  match decision_matrix (pdp ctx []) true ctx with
  | DecisionOutcome.evalError => (Except.error DomainError.InternalError, s)
  | DecisionOutcome.deny _ => (Except.error DomainError.Forbidden, s)
  | DecisionOutcome.allow scope =>
    let r := find_scoped_city cid scope s
    match r.1 with
    | some c => (Except.ok c, r.2)
    | none => (Except.error DomainError.NotFound, r.2)

/-- Modelled from the spec: `create_city` (§4.3 validated insert). -/
def create_city (pdp : PolicyClient) (ctx : SecurityContext) (nc : NewCity)
    (s : Store) : Except DomainError CityRow × Store :=
  match decision_matrix (pdp ctx []) true ctx with
  | DecisionOutcome.evalError => (Except.error DomainError.InternalError, s)
  | DecisionOutcome.deny _ => (Except.error DomainError.Forbidden, s)
  | DecisionOutcome.allow scope =>
    let row : CityRow :=
      { id := nc.id.getD s.next_id, tenant_id := nc.tenant_id,
        name := nc.name, country := nc.country }
    match insert_validated_city row scope s with
    | (Except.ok c, s') => (Except.ok c, { s' with next_id := s'.next_id + 1 })
    | (Except.error _, s') => (Except.error DomainError.Forbidden, s')

/-- Modelled from the spec: `update_city` (§4.3 scoped update). -/
def update_city (pdp : PolicyClient) (ctx : SecurityContext) (cid : Nat)
    (p : CityPatch) (s : Store) : Except DomainError CityRow × Store :=
  match decision_matrix (pdp ctx []) true ctx with
  | DecisionOutcome.evalError => (Except.error DomainError.InternalError, s)
  | DecisionOutcome.deny _ => (Except.error DomainError.Forbidden, s)
  | DecisionOutcome.allow scope =>
    let r := update_scoped_city cid (apply_city_patch p) scope s
    match r.1 with
    | some c => (Except.ok c, r.2)
    | none => (Except.error DomainError.Forbidden, r.2)

/-- Modelled from the spec: `delete_city` (§4.3 scoped delete). -/
def delete_city (pdp : PolicyClient) (ctx : SecurityContext) (cid : Nat)
    (s : Store) : Except DomainError Unit × Store :=
  match decision_matrix (pdp ctx []) true ctx with
  | DecisionOutcome.evalError => (Except.error DomainError.InternalError, s)
  | DecisionOutcome.deny _ => (Except.error DomainError.Forbidden, s)
  | DecisionOutcome.allow scope =>
    let r := delete_scoped_city cid scope s
    if r.1 == 0 then (Except.error DomainError.Forbidden, r.2)
    else (Except.ok (), r.2)

/-- Modelled from the spec: `list_addresses_page` (§6). -/
def list_addresses_page (pdp : PolicyClient) (ctx : SecurityContext) (s : Store) :
    Except DomainError (List AddressRow) × Store :=
  match decision_matrix (pdp ctx []) true ctx with
  | DecisionOutcome.evalError => (Except.error DomainError.InternalError, s)
  | DecisionOutcome.deny _ => (Except.error DomainError.Forbidden, s)
  | DecisionOutcome.allow scope =>
    let r := list_scoped_addresses scope s
    (Except.ok r.1, r.2)

/-- Modelled from the spec: `get_address` — prefetch by primary key (§4.4
step 1), policy query over the prefetched resource properties, Decision
Matrix, then the scoped read (§4.4 step 4). -/
def get_address (pdp : PolicyClient) (ctx : SecurityContext) (aid : Nat)
    (s : Store) : Except DomainError AddressRow × Store :=
  match find_address_by_id s aid with
  | none => (Except.error DomainError.NotFound, s)
  | some a =>
    match decision_matrix (pdp ctx (addr_props a)) true ctx with
    | DecisionOutcome.evalError => (Except.error DomainError.InternalError, s)
    | DecisionOutcome.deny _ => (Except.error DomainError.Forbidden, s)
    | DecisionOutcome.allow scope =>
      let r := find_scoped_address aid scope s
      match r.1 with
      | some b => (Except.ok b, r.2)
      | none => (Except.error DomainError.NotFound, r.2)

/-- Modelled from the spec: `get_user_address` — prefetch the user's
address, policy query over its properties, Decision Matrix, scoped read;
absence (before policy, or outside scope) is `none`. -/
def get_user_address (pdp : PolicyClient) (ctx : SecurityContext) (uid : Nat)
    (s : Store) : Except DomainError (Option AddressRow) × Store :=
  match find_address_by_user s uid with
  | none => (Except.ok none, s)
  | some a =>
    match decision_matrix (pdp ctx (addr_props a)) true ctx with
    | DecisionOutcome.evalError => (Except.error DomainError.InternalError, s)
    | DecisionOutcome.deny _ => (Except.error DomainError.Forbidden, s)
    | DecisionOutcome.allow scope =>
      let r := find_scoped_address a.id scope s
      (Except.ok r.1, r.2)

/-- Modelled from the spec: `create_address` — parent-existence validation
(§7 Validation), tenant forcing from the parent user's stored tenant
(§4.5), policy query over the new row's properties, Decision Matrix, then
the validated insert (§4.3). -/
def create_address (pdp : PolicyClient) (ctx : SecurityContext) (na : NewAddress)
    (s : Store) : Except DomainError AddressRow × Store :=
  match find_user_by_id s na.user_id with
  | none => (Except.error DomainError.Validation, s)
  | some parent =>
    let row : AddressRow :=
      { id := na.id.getD s.next_id, tenant_id := parent.tenant_id,
        user_id := na.user_id, city_id := na.city_id,
        street := na.street, postal_code := na.postal_code }
    match decision_matrix (pdp ctx (addr_props row)) true ctx with
    | DecisionOutcome.evalError => (Except.error DomainError.InternalError, s)
    | DecisionOutcome.deny _ => (Except.error DomainError.Forbidden, s)
    | DecisionOutcome.allow scope =>
      match insert_validated_address row scope s with
      | (Except.ok a, s') => (Except.ok a, { s' with next_id := s'.next_id + 1 })
      | (Except.error _, s') => (Except.error DomainError.Forbidden, s')

/-- Modelled from the spec: `put_user_address` — create-or-update of the
one address of a user.  Parent-existence validation, then prefetch of the
existing address: absent → create path (tenant forcing §4.5, validated
insert §4.3); present → update path (policy query over the prefetched row,
Decision Matrix, scoped update whose WHERE clause carries the scope,
§4.4). -/
def put_user_address (pdp : PolicyClient) (ctx : SecurityContext) (uid : Nat)
    (na : NewAddress) (s : Store) : Except DomainError AddressRow × Store :=
  match find_user_by_id s uid with
  | none => (Except.error DomainError.Validation, s)
  | some parent =>
    match find_address_by_user s uid with
    | none =>
      let row : AddressRow :=
        { id := na.id.getD s.next_id, tenant_id := parent.tenant_id,
          user_id := uid, city_id := na.city_id,
          street := na.street, postal_code := na.postal_code }
      match decision_matrix (pdp ctx (addr_props row)) true ctx with
      | DecisionOutcome.evalError => (Except.error DomainError.InternalError, s)
      | DecisionOutcome.deny _ => (Except.error DomainError.Forbidden, s)
      | DecisionOutcome.allow scope =>
        match insert_validated_address row scope s with
        | (Except.ok a, s') => (Except.ok a, { s' with next_id := s'.next_id + 1 })
        | (Except.error _, s') => (Except.error DomainError.Forbidden, s')
    | some existing =>
      match decision_matrix (pdp ctx (addr_props existing)) true ctx with
      | DecisionOutcome.evalError => (Except.error DomainError.InternalError, s)
      | DecisionOutcome.deny _ => (Except.error DomainError.Forbidden, s)
      | DecisionOutcome.allow scope =>
        let upd := fun (a : AddressRow) =>
          { a with city_id := na.city_id, street := na.street,
                   postal_code := na.postal_code }
        let r := update_scoped_address existing.id upd scope s
        match r.1 with
        | some a => (Except.ok a, r.2)
        | none => (Except.error DomainError.Forbidden, r.2)

/-- Modelled from the spec: `delete_address` — prefetch by primary key,
policy query over the prefetched properties, Decision Matrix, then the
scoped delete; zero rows affected surfaces as Forbidden-class (§4.4, §7,
§9). -/
def delete_address (pdp : PolicyClient) (ctx : SecurityContext) (aid : Nat)
    (s : Store) : Except DomainError Unit × Store :=
  match find_address_by_id s aid with
  | none => (Except.error DomainError.NotFound, s)
  | some a =>
    match decision_matrix (pdp ctx (addr_props a)) true ctx with
    | DecisionOutcome.evalError => (Except.error DomainError.InternalError, s)
    | DecisionOutcome.deny _ => (Except.error DomainError.Forbidden, s)
    | DecisionOutcome.allow scope =>
      let r := delete_scoped_address aid scope s
      if r.1 == 0 then (Except.error DomainError.Forbidden, r.2)
      else (Except.ok (), r.2)

/-- Modelled from the spec/tests: the permissive resolver installed by
`build_services` — allow, echoing the caller's tenant membership as an
`In(tenant_id, …)` constraint; an anonymous caller (no tenant) yields an
empty constraint list. -/
def allow_all_pdp : PolicyClient := fun ctx _ =>
  Except.ok
    { allow := true,
      constraints :=
        if ctx.tenants.isEmpty then []
        else [Predicate.In Field.tenant_id ctx.tenants] }

/-- Modelled from the tests: `DenyAllAuthZResolver` — a definite
`allow = false` decision. -/
def deny_all_pdp : PolicyClient := fun _ _ =>
  Except.ok { allow := false, constraints := [] }

/-- Modelled from the tests: `FailingAuthZResolver` — every evaluation
fails. -/
def failing_pdp : PolicyClient := fun _ _ => Except.error ()

/-- Modelled from the tests: `OwnerCityAuthZResolver` — allow with
`Eq(owner_id, subject)` plus the `city_id` echoed back from the resource
properties of the query. -/
def owner_city_pdp : PolicyClient := fun ctx props =>
  Except.ok
    { allow := true,
      constraints :=
        (match ctx.subject with
         | some subj => [Predicate.Eq Field.owner_id subj]
         | none => []) ++
        (match props.lookup Field.city_id with
         | some c => [Predicate.Eq Field.city_id c]
         | none => []) }

/-- Modelled from the tests: `ctx_allow_tenants` — a non-root context
scoped to the given tenants, with no subject. -/
def ctx_allow_tenants (ts : List Nat) : SecurityContext :=
  { subject := none, tenants := ts, root := false }

/-- Modelled from the tests: `ctx_deny_all` — the anonymous context: no
subject, empty tenant set, not root. -/
def ctx_deny_all : SecurityContext :=
  { subject := none, tenants := [], root := false }

/-- Modelled from the tests: `ctx_for_subject` — a context for one subject
inside one tenant. -/
def ctx_for_subject (subj tenant : Nat) : SecurityContext :=
  { subject := some subj, tenants := [tenant], root := false }

/-- The closed enumeration of the domain-service operations exposed by the
modelled services (§6 Domain services): create / get / list / update /
delete on users, addresses and cities, plus the address `get`/`put` by
owner. -/
inductive Op where
  | listUsers
  | getUser (uid : Nat)
  | createUser (nu : NewUser)
  | updateUser (uid : Nat) (p : UserPatch)
  | deleteUser (uid : Nat)
  | listCities
  | getCity (cid : Nat)
  | createCity (nc : NewCity)
  | updateCity (cid : Nat) (p : CityPatch)
  | deleteCity (cid : Nat)
  | listAddresses
  | getAddress (aid : Nat)
  | getUserAddress (uid : Nat)
  | createAddress (na : NewAddress)
  | putUserAddress (uid : Nat) (na : NewAddress)
  | deleteAddress (aid : Nat)
  deriving DecidableEq, Repr

/-- Run one domain-service operation, erasing the success payload (the
error taxonomy and the resulting store are what the cross-operation
claims are about). -/
def run_op (op : Op) (pdp : PolicyClient) (ctx : SecurityContext) (s : Store) :
    Except DomainError Unit × Store :=
  match op with
  | Op.listUsers =>
    ((list_users_page pdp ctx s).1.map (fun _ => ()), (list_users_page pdp ctx s).2)
  | Op.getUser uid =>
    ((get_user pdp ctx uid s).1.map (fun _ => ()), (get_user pdp ctx uid s).2)
  | Op.createUser nu =>
    ((create_user pdp ctx nu s).1.map (fun _ => ()), (create_user pdp ctx nu s).2)
  | Op.updateUser uid p =>
    ((update_user pdp ctx uid p s).1.map (fun _ => ()), (update_user pdp ctx uid p s).2)
  | Op.deleteUser uid =>
    ((delete_user pdp ctx uid s).1.map (fun _ => ()), (delete_user pdp ctx uid s).2)
  | Op.listCities =>
    ((list_cities_page pdp ctx s).1.map (fun _ => ()), (list_cities_page pdp ctx s).2)
  | Op.getCity cid =>
    ((get_city pdp ctx cid s).1.map (fun _ => ()), (get_city pdp ctx cid s).2)
  | Op.createCity nc =>
    ((create_city pdp ctx nc s).1.map (fun _ => ()), (create_city pdp ctx nc s).2)
  | Op.updateCity cid p =>
    ((update_city pdp ctx cid p s).1.map (fun _ => ()), (update_city pdp ctx cid p s).2)
  | Op.deleteCity cid =>
    ((delete_city pdp ctx cid s).1.map (fun _ => ()), (delete_city pdp ctx cid s).2)
  | Op.listAddresses =>
    ((list_addresses_page pdp ctx s).1.map (fun _ => ()), (list_addresses_page pdp ctx s).2)
  | Op.getAddress aid =>
    ((get_address pdp ctx aid s).1.map (fun _ => ()), (get_address pdp ctx aid s).2)
  | Op.getUserAddress uid =>
    ((get_user_address pdp ctx uid s).1.map (fun _ => ()), (get_user_address pdp ctx uid s).2)
  | Op.createAddress na =>
    ((create_address pdp ctx na s).1.map (fun _ => ()), (create_address pdp ctx na s).2)
  | Op.putUserAddress uid na =>
    ((put_user_address pdp ctx uid na s).1.map (fun _ => ()), (put_user_address pdp ctx uid na s).2)
  | Op.deleteAddress aid =>
    ((delete_address pdp ctx aid s).1.map (fun _ => ()), (delete_address pdp ctx aid s).2)

/-- Whether an operation's control flow reaches the policy query in the
given store: true for every operation except the address operations whose
pre-policy validation or advisory prefetch comes up empty (a non-existent
parent user on create/put, a non-existent address on get/delete), which
terminate with Validation / NotFound / an empty read before any policy
call. -/
def reaches_policy (op : Op) (s : Store) : Bool :=
  match op with
  | Op.getAddress aid => (find_address_by_id s aid).isSome
  | Op.deleteAddress aid => (find_address_by_id s aid).isSome
  | Op.getUserAddress uid => (find_address_by_user s uid).isSome
  | Op.createAddress na => (find_user_by_id s na.user_id).isSome
  | Op.putUserAddress uid _ => (find_user_by_id s uid).isSome
  | _ => true

/-- Fixture: a user of tenant 10. -/
def w_user1 : UserRow :=
  { id := 1, tenant_id := 10, email := "u1@example.com", display_name := "U1" }

/-- Fixture: a user of tenant 20. -/
def w_user2 : UserRow :=
  { id := 2, tenant_id := 20, email := "u2@example.com", display_name := "U2" }

/-- Fixture: a second user of tenant 10 (the address owner `B`). -/
def w_userB : UserRow :=
  { id := 2, tenant_id := 10, email := "b@example.com", display_name := "User B" }

/-- Fixture: user B's address, in tenant 10 and city 5. -/
def w_addrB : AddressRow :=
  { id := 50, tenant_id := 10, user_id := 2, city_id := 5,
    street := "B Street", postal_code := "22222" }

/-- Fixture: a store with one user per tenant (tenants 10 and 20). -/
def store_two_tenants : Store :=
  { users := [w_user1, w_user2], cities := [], addresses := [],
    next_id := 100, scoped_accesses := 0 }

/-- Fixture: a store with users A (id 1) and B (id 2) in tenant 10 and
B's address. -/
def store_owned : Store :=
  { users := [w_user1, w_userB], cities := [], addresses := [w_addrB],
    next_id := 100, scoped_accesses := 0 }

/-- Fixture: a store with one user and no address yet. -/
def store_fresh : Store :=
  { users := [w_user1], cities := [], addresses := [],
    next_id := 100, scoped_accesses := 0 }

/-- Fixture: user 1's address in city 5, for the city-scope update claim. -/
def w_addr1 : AddressRow :=
  { id := 50, tenant_id := 10, user_id := 1, city_id := 5,
    street := "Good St", postal_code := "11111" }

/-- Fixture: a store with user 1 owning an address in city 5. -/
def store_city : Store :=
  { users := [w_user1], cities := [], addresses := [w_addr1],
    next_id := 100, scoped_accesses := 0 }

/-- Fixture: an address-creation request naming user 2 as owner and a
foreign tenant value. -/
def w_na : NewAddress :=
  { id := none, tenant_id := 999, user_id := 2, city_id := 5,
    street := "Main St", postal_code := "33333" }

/-- Fixture: a user patch changing the email only. -/
def w_patch : UserPatch :=
  { email := some "changed@example.com", display_name := none }

/-- Fixture: a city patch changing the name only. -/
def w_city_patch : CityPatch :=
  { name := some "Renamed City", country := none }

/-- Fixture: a city of tenant 20. -/
def w_city2 : CityRow :=
  { id := 7, tenant_id := 20, name := "Other City", country := "OC" }

/-- Fixture: a store holding one user per tenant and one city of
tenant 20. -/
def store_mixed : Store :=
  { users := [w_user1, w_user2], cities := [w_city2], addresses := [],
    next_id := 100, scoped_accesses := 0 }

/-- Fixture: the first PUT payload for user 1. -/
def w_put1 : NewAddress :=
  { id := none, tenant_id := 10, user_id := 1, city_id := 5,
    street := "First St", postal_code := "11111" }

/-- Fixture: the second PUT payload for user 1, replacing street and
postal code. -/
def w_put2 : NewAddress :=
  { id := none, tenant_id := 10, user_id := 1, city_id := 5,
    street := "Second St", postal_code := "22222" }

/-- Fixture: a PUT payload moving user 1's address to city 7. -/
def w_put_city : NewAddress :=
  { id := none, tenant_id := 10, user_id := 1, city_id := 7,
    street := "Good St", postal_code := "11111" }

lemma decision_matrix_of_error (require : Bool) (ctx : SecurityContext) :
    decision_matrix (Except.error ()) require ctx = DecisionOutcome.evalError := rfl

lemma decision_matrix_of_deny (cs : List Predicate) (require : Bool)
    (ctx : SecurityContext) :
    decision_matrix (Except.ok { allow := false, constraints := cs }) require ctx
      = DecisionOutcome.deny DenyReason.denied := rfl

lemma decision_matrix_of_empty_constraints (ctx : SecurityContext) :
    decision_matrix (Except.ok { allow := true, constraints := [] }) true ctx
      = DecisionOutcome.deny DenyReason.constraintsRequiredButAbsent := rfl

lemma decision_matrix_of_allow (c : Predicate) (cs : List Predicate)
    (require : Bool) (ctx : SecurityContext) :
    decision_matrix (Except.ok { allow := true, constraints := c :: cs }) require ctx
      = DecisionOutcome.allow (tenant_baseline ctx ++ (c :: cs)) := by
  simp [decision_matrix]

/-- C1: for every domain-service operation (create/get/list/update/delete
on users, addresses, cities), if the policy client fails to evaluate
(returns an evaluation failure rather than a decision), the operation's
result is the InternalError variant of the error taxonomy — never
Forbidden. -/
theorem pdp_eval_failure_yields_internal_error
    (pdp : PolicyClient) (op : Op) (ctx : SecurityContext) (s : Store)
    (hf : ∀ c p, pdp c p = Except.error ())
    (hr : reaches_policy op s = true) :
    (run_op op pdp ctx s).1 = Except.error DomainError.InternalError := by
  cases op with
  | listUsers => simp [run_op, list_users_page, hf, decision_matrix, Except.map]
  | getUser uid => simp [run_op, get_user, hf, decision_matrix, Except.map]
  | createUser nu => simp [run_op, create_user, hf, decision_matrix, Except.map]
  | updateUser uid p => simp [run_op, update_user, hf, decision_matrix, Except.map]
  | deleteUser uid => simp [run_op, delete_user, hf, decision_matrix, Except.map]
  | listCities => simp [run_op, list_cities_page, hf, decision_matrix, Except.map]
  | getCity cid => simp [run_op, get_city, hf, decision_matrix, Except.map]
  | createCity nc => simp [run_op, create_city, hf, decision_matrix, Except.map]
  | updateCity cid p => simp [run_op, update_city, hf, decision_matrix, Except.map]
  | deleteCity cid => simp [run_op, delete_city, hf, decision_matrix, Except.map]
  | listAddresses => simp [run_op, list_addresses_page, hf, decision_matrix, Except.map]
  | getAddress aid =>
    rcases hfa : find_address_by_id s aid with _ | a
    · simp [reaches_policy, hfa] at hr
    · simp [run_op, get_address, hfa, hf, decision_matrix, Except.map]
  | getUserAddress uid =>
    rcases hfa : find_address_by_user s uid with _ | a
    · simp [reaches_policy, hfa] at hr
    · simp [run_op, get_user_address, hfa, hf, decision_matrix, Except.map]
  | createAddress na =>
    rcases hfu : find_user_by_id s na.user_id with _ | parent
    · simp [reaches_policy, hfu] at hr
    · simp [run_op, create_address, hfu, hf, decision_matrix, Except.map]
  | putUserAddress uid na =>
    rcases hfu : find_user_by_id s uid with _ | parent
    · simp [reaches_policy, hfu] at hr
    · rcases hfa : find_address_by_user s uid with _ | a
      · simp [run_op, put_user_address, hfu, hfa, hf, decision_matrix, Except.map]
      · simp [run_op, put_user_address, hfu, hfa, hf, decision_matrix, Except.map]
  | deleteAddress aid =>
    rcases hfa : find_address_by_id s aid with _ | a
    · simp [reaches_policy, hfa] at hr
    · simp [run_op, delete_address, hfa, hf, decision_matrix, Except.map]

/-- Witness for C1: the delete of user B's existing address with the
failing PDP surfaces InternalError on a concrete store. -/
theorem pdp_eval_failure_yields_internal_error_witness :
    reaches_policy (Op.deleteAddress 50) store_owned = true ∧
    (run_op (Op.deleteAddress 50) failing_pdp (ctx_allow_tenants [10]) store_owned).1
      = Except.error DomainError.InternalError :=
  ⟨rfl,
   pdp_eval_failure_yields_internal_error failing_pdp (Op.deleteAddress 50)
     (ctx_allow_tenants [10]) store_owned (fun _ _ => rfl) rfl⟩

/-- C2: for every domain-service operation, if the policy client returns a
decision with `allow = false`, the operation's result is Forbidden — never
InternalError — and no partial write to the store occurs (the resulting
store is the input store, untouched). -/
theorem pdp_deny_yields_forbidden_no_write
    (pdp : PolicyClient) (op : Op) (ctx : SecurityContext) (s : Store)
    (hd : ∀ c p, ∃ cs, pdp c p = Except.ok { allow := false, constraints := cs })
    (hr : reaches_policy op s = true) :
    run_op op pdp ctx s = (Except.error DomainError.Forbidden, s) := by
  cases op with
  | listUsers =>
    obtain ⟨cs, hcs⟩ := hd ctx []
    simp [run_op, list_users_page, hcs, decision_matrix, Except.map]
  | getUser uid =>
    obtain ⟨cs, hcs⟩ := hd ctx []
    simp [run_op, get_user, hcs, decision_matrix, Except.map]
  | createUser nu =>
    obtain ⟨cs, hcs⟩ := hd ctx []
    simp [run_op, create_user, hcs, decision_matrix, Except.map]
  | updateUser uid p =>
    obtain ⟨cs, hcs⟩ := hd ctx []
    simp [run_op, update_user, hcs, decision_matrix, Except.map]
  | deleteUser uid =>
    obtain ⟨cs, hcs⟩ := hd ctx []
    simp [run_op, delete_user, hcs, decision_matrix, Except.map]
  | listCities =>
    obtain ⟨cs, hcs⟩ := hd ctx []
    simp [run_op, list_cities_page, hcs, decision_matrix, Except.map]
  | getCity cid =>
    obtain ⟨cs, hcs⟩ := hd ctx []
    simp [run_op, get_city, hcs, decision_matrix, Except.map]
  | createCity nc =>
    obtain ⟨cs, hcs⟩ := hd ctx []
    simp [run_op, create_city, hcs, decision_matrix, Except.map]
  | updateCity cid p =>
    obtain ⟨cs, hcs⟩ := hd ctx []
    simp [run_op, update_city, hcs, decision_matrix, Except.map]
  | deleteCity cid =>
    obtain ⟨cs, hcs⟩ := hd ctx []
    simp [run_op, delete_city, hcs, decision_matrix, Except.map]
  | listAddresses =>
    obtain ⟨cs, hcs⟩ := hd ctx []
    simp [run_op, list_addresses_page, hcs, decision_matrix, Except.map]
  | getAddress aid =>
    rcases hfa : find_address_by_id s aid with _ | a
    · simp [reaches_policy, hfa] at hr
    · obtain ⟨cs, hcs⟩ := hd ctx (addr_props a)
      simp [run_op, get_address, hfa, hcs, decision_matrix, Except.map]
  | getUserAddress uid =>
    rcases hfa : find_address_by_user s uid with _ | a
    · simp [reaches_policy, hfa] at hr
    · obtain ⟨cs, hcs⟩ := hd ctx (addr_props a)
      simp [run_op, get_user_address, hfa, hcs, decision_matrix, Except.map]
  | createAddress na =>
    rcases hfu : find_user_by_id s na.user_id with _ | parent
    · simp [reaches_policy, hfu] at hr
    · obtain ⟨cs, hcs⟩ := hd ctx (addr_props
        { id := na.id.getD s.next_id, tenant_id := parent.tenant_id,
          user_id := na.user_id, city_id := na.city_id,
          street := na.street, postal_code := na.postal_code })
      simp [run_op, create_address, hfu, hcs, decision_matrix, Except.map]
  | putUserAddress uid na =>
    rcases hfu : find_user_by_id s uid with _ | parent
    · simp [reaches_policy, hfu] at hr
    · rcases hfa : find_address_by_user s uid with _ | a
      · obtain ⟨cs, hcs⟩ := hd ctx (addr_props
          { id := na.id.getD s.next_id, tenant_id := parent.tenant_id,
            user_id := uid, city_id := na.city_id,
            street := na.street, postal_code := na.postal_code })
        simp [run_op, put_user_address, hfu, hfa, hcs, decision_matrix, Except.map]
      · obtain ⟨cs, hcs⟩ := hd ctx (addr_props a)
        simp [run_op, put_user_address, hfu, hfa, hcs, decision_matrix, Except.map]
  | deleteAddress aid =>
    rcases hfa : find_address_by_id s aid with _ | a
    · simp [reaches_policy, hfa] at hr
    · obtain ⟨cs, hcs⟩ := hd ctx (addr_props a)
      simp [run_op, delete_address, hfa, hcs, decision_matrix, Except.map]

/-- Witness for C2: deleting user B's existing address under the deny-all
PDP returns Forbidden and leaves the concrete store untouched. -/
theorem pdp_deny_yields_forbidden_no_write_witness :
    reaches_policy (Op.deleteAddress 50) store_owned = true ∧
    run_op (Op.deleteAddress 50) deny_all_pdp (ctx_allow_tenants [10]) store_owned
      = (Except.error DomainError.Forbidden, store_owned) :=
  ⟨rfl,
   pdp_deny_yields_forbidden_no_write deny_all_pdp (Op.deleteAddress 50)
     (ctx_allow_tenants [10]) store_owned (fun _ _ => ⟨[], rfl⟩) rfl⟩

/-- C4: every tenant-scoped operation invoked with the anonymous security
context (no subject, empty tenant set) against a policy client that
answers allow with an empty constraint list is Forbidden via the Decision
Matrix's constraints-required-but-absent rule, and the denial happens
before any storage access: the resulting store is the input store, its
`scoped_accesses` counter included. -/
theorem anonymous_context_denied_before_storage
    (pdp : PolicyClient) (op : Op) (s : Store)
    (ha : ∀ p, pdp ctx_deny_all p = Except.ok { allow := true, constraints := [] })
    (hr : reaches_policy op s = true) :
    run_op op pdp ctx_deny_all s = (Except.error DomainError.Forbidden, s) ∧
    (∀ p, decision_matrix (pdp ctx_deny_all p) true ctx_deny_all
        = DecisionOutcome.deny DenyReason.constraintsRequiredButAbsent) := by
  constructor
  · cases op with
    | listUsers => simp [run_op, list_users_page, ha, decision_matrix, Except.map]
    | getUser uid => simp [run_op, get_user, ha, decision_matrix, Except.map]
    | createUser nu => simp [run_op, create_user, ha, decision_matrix, Except.map]
    | updateUser uid p => simp [run_op, update_user, ha, decision_matrix, Except.map]
    | deleteUser uid => simp [run_op, delete_user, ha, decision_matrix, Except.map]
    | listCities => simp [run_op, list_cities_page, ha, decision_matrix, Except.map]
    | getCity cid => simp [run_op, get_city, ha, decision_matrix, Except.map]
    | createCity nc => simp [run_op, create_city, ha, decision_matrix, Except.map]
    | updateCity cid p => simp [run_op, update_city, ha, decision_matrix, Except.map]
    | deleteCity cid => simp [run_op, delete_city, ha, decision_matrix, Except.map]
    | listAddresses => simp [run_op, list_addresses_page, ha, decision_matrix, Except.map]
    | getAddress aid =>
      rcases hfa : find_address_by_id s aid with _ | a
      · simp [reaches_policy, hfa] at hr
      · simp [run_op, get_address, hfa, ha, decision_matrix, Except.map]
    | getUserAddress uid =>
      rcases hfa : find_address_by_user s uid with _ | a
      · simp [reaches_policy, hfa] at hr
      · simp [run_op, get_user_address, hfa, ha, decision_matrix, Except.map]
    | createAddress na =>
      rcases hfu : find_user_by_id s na.user_id with _ | parent
      · simp [reaches_policy, hfu] at hr
      · simp [run_op, create_address, hfu, ha, decision_matrix, Except.map]
    | putUserAddress uid na =>
      rcases hfu : find_user_by_id s uid with _ | parent
      · simp [reaches_policy, hfu] at hr
      · rcases hfa : find_address_by_user s uid with _ | a
        · simp [run_op, put_user_address, hfu, hfa, ha, decision_matrix, Except.map]
        · simp [run_op, put_user_address, hfu, hfa, ha, decision_matrix, Except.map]
    | deleteAddress aid =>
      rcases hfa : find_address_by_id s aid with _ | a
      · simp [reaches_policy, hfa] at hr
      · simp [run_op, delete_address, hfa, ha, decision_matrix, Except.map]
  · intro p
    simp [ha, decision_matrix]

/-- Witness for C4: an anonymous list of users over a seeded store with the
permissive PDP is Forbidden and performs no storage access. -/
theorem anonymous_context_denied_before_storage_witness :
    run_op Op.listUsers allow_all_pdp ctx_deny_all store_two_tenants
      = (Except.error DomainError.Forbidden, store_two_tenants) ∧
    (∀ p, decision_matrix (allow_all_pdp ctx_deny_all p) true ctx_deny_all
        = DecisionOutcome.deny DenyReason.constraintsRequiredButAbsent) :=
  anonymous_context_denied_before_storage allow_all_pdp Op.listUsers
    store_two_tenants (fun _ => rfl) rfl

/-- C3: every row returned by any list operation (users, cities,
addresses) under a context scoped to tenant `t` (with the permissive
tenant-echoing PDP) belongs to tenant `t`; and in the concrete two-tenant
scenario with one user each, listing users under tenant 10 returns exactly
the one row of tenant 10. -/
theorem tenant_scoped_list_isolation :
    (∀ (t : Nat) (s : Store) (rows : List UserRow) (s' : Store),
        list_users_page allow_all_pdp (ctx_allow_tenants [t]) s = (Except.ok rows, s') →
        ∀ u ∈ rows, u.tenant_id = t) ∧
    (∀ (t : Nat) (s : Store) (rows : List CityRow) (s' : Store),
        list_cities_page allow_all_pdp (ctx_allow_tenants [t]) s = (Except.ok rows, s') →
        ∀ c ∈ rows, c.tenant_id = t) ∧
    (∀ (t : Nat) (s : Store) (rows : List AddressRow) (s' : Store),
        list_addresses_page allow_all_pdp (ctx_allow_tenants [t]) s = (Except.ok rows, s') →
        ∀ a ∈ rows, a.tenant_id = t) ∧
    (list_users_page allow_all_pdp (ctx_allow_tenants [10]) store_two_tenants).1
      = Except.ok [w_user1] ∧
    w_user1.tenant_id = 10 := by
  refine ⟨?_, ?_, ?_, rfl, rfl⟩
  · intro t s rows s' h u hu
    simp only [list_users_page, allow_all_pdp, ctx_allow_tenants, decision_matrix,
      tenant_baseline, list_scoped_users] at h
    simp at h
    obtain ⟨h1, _⟩ := h
    rw [← h1] at hu
    rw [List.mem_filter] at hu
    have h2 := hu.2
    simp [in_scope, pred_holds, user_field] at h2
    exact h2
  · intro t s rows s' h c hc
    simp only [list_cities_page, allow_all_pdp, ctx_allow_tenants, decision_matrix,
      tenant_baseline, list_scoped_cities] at h
    simp at h
    obtain ⟨h1, _⟩ := h
    rw [← h1] at hc
    rw [List.mem_filter] at hc
    have h2 := hc.2
    simp [in_scope, pred_holds, city_field] at h2
    exact h2
  · intro t s rows s' h a ha
    simp only [list_addresses_page, allow_all_pdp, ctx_allow_tenants, decision_matrix,
      tenant_baseline, list_scoped_addresses] at h
    simp at h
    obtain ⟨h1, _⟩ := h
    rw [← h1] at ha
    rw [List.mem_filter] at ha
    have h2 := ha.2
    simp [in_scope, pred_holds, address_field] at h2
    exact h2

/-- Witness for C3: applying the isolation theorem to the concrete
two-tenant store yields tenant 10 for the returned row. -/
theorem tenant_scoped_list_isolation_witness : w_user1.tenant_id = 10 :=
  tenant_scoped_list_isolation.1 10 store_two_tenants [w_user1]
    (bump store_two_tenants) rfl w_user1 (by simp)

/-- C5: whenever a create of an address succeeds (for any policy client,
any context, any caller-supplied tenant value), the persisted row's tenant
identifier equals the parent user's stored tenant, and the row is in the
resulting store. -/
theorem create_address_forces_parent_tenant
    (pdp : PolicyClient) (ctx : SecurityContext) (na : NewAddress) (s : Store)
    (a : AddressRow) (s' : Store)
    (h : create_address pdp ctx na s = (Except.ok a, s')) :
    ∃ u, find_user_by_id s na.user_id = some u ∧
      a.tenant_id = u.tenant_id ∧ a.user_id = na.user_id ∧ a ∈ s'.addresses := by
  unfold create_address at h
  split at h
  · simp at h
  · rename_i parent hfind
    simp only [] at h
    split at h
    · simp at h
    · simp at h
    · rename_i scope hm
      split at h
      · rename_i b s2 heq
        rw [insert_validated_address] at heq
        split at heq
        · simp only [Prod.mk.injEq, Except.ok.injEq] at heq h
          obtain ⟨hb, hs2⟩ := heq
          obtain ⟨hab, hs'⟩ := h
          subst hb
          subst hs2
          subst hab
          subst hs'
          exact ⟨parent, hfind, rfl, rfl, by simp⟩
        · simp at heq
      · simp at h

/-- Witness for C5: creating an address for user B while supplying the
foreign tenant value 999 persists tenant 10, the parent's tenant. -/
theorem create_address_forces_parent_tenant_witness :
    ∃ u, find_user_by_id store_owned w_na.user_id = some u ∧
      ({ id := 100, tenant_id := 10, user_id := 2, city_id := 5,
         street := "Main St", postal_code := "33333" } : AddressRow).tenant_id
        = u.tenant_id ∧
      ({ id := 100, tenant_id := 10, user_id := 2, city_id := 5,
         street := "Main St", postal_code := "33333" } : AddressRow).user_id
        = w_na.user_id ∧
      ({ id := 100, tenant_id := 10, user_id := 2, city_id := 5,
         street := "Main St", postal_code := "33333" } : AddressRow)
        ∈ ({ users := [w_user1, w_userB], cities := [],
             addresses := [w_addrB,
               { id := 100, tenant_id := 10, user_id := 2, city_id := 5,
                 street := "Main St", postal_code := "33333" }],
             next_id := 101, scoped_accesses := 1 } : Store).addresses :=
  create_address_forces_parent_tenant allow_all_pdp (ctx_allow_tenants [10])
    w_na store_owned
    { id := 100, tenant_id := 10, user_id := 2, city_id := 5,
      street := "Main St", postal_code := "33333" }
    { users := [w_user1, w_userB], cities := [],
      addresses := [w_addrB,
        { id := 100, tenant_id := 10, user_id := 2, city_id := 5,
          street := "Main St", postal_code := "33333" }],
      next_id := 101, scoped_accesses := 1 }
    rfl

lemma field_beq_eq_decide (a b : Field) : (a == b) = decide (a = b) := rfl

lemma in_scope_false_of_mem (scope : AccessScope) (fv : Field → Option Nat)
    (p : Predicate) (hp : p ∈ scope) (hf : pred_holds fv p = false) :
    in_scope scope fv = false := by
  rw [in_scope]
  induction scope with
  | nil => simp at hp
  | cons q qs ih =>
    rw [List.all_cons]
    rcases List.mem_cons.mp hp with h | h
    · subst h
      simp [hf]
    · simp [ih h]

lemma insert_validated_address_owner_mismatch (scope : AccessScope) (A : Nat)
    (row : AddressRow) (s : Store)
    (hmem : Predicate.Eq Field.owner_id A ∈ scope) (hne : row.user_id ≠ A) :
    insert_validated_address row scope s = (Except.error (), bump s) := by
  have hfalse : in_scope scope (address_field row) = false := by
    refine in_scope_false_of_mem scope (address_field row) _ hmem ?_
    simp [pred_holds, address_field]
    exact hne
  rw [insert_validated_address]
  simp [hfalse]

/-- C6: a validated insert under an AccessScope containing the constraint
`Eq(owner_id, A)` rejects any new address row declaring owner `B ≠ A`, and
no row is persisted; at the service level, with the owner-echoing PDP a
caller authenticated as subject `A` cannot create an address for another
user — the result is Forbidden and the store's rows are untouched. -/
theorem insert_scope_owner_violation_rejected :
    (∀ (scope : AccessScope) (A : Nat) (row : AddressRow) (s : Store),
        Predicate.Eq Field.owner_id A ∈ scope → row.user_id ≠ A →
        insert_validated_address row scope s = (Except.error (), bump s)) ∧
    (∀ (t A : Nat) (na : NewAddress) (s : Store) (pu : UserRow),
        find_user_by_id s na.user_id = some pu → na.user_id ≠ A →
        create_address owner_city_pdp (ctx_for_subject A t) na s
          = (Except.error DomainError.Forbidden, bump s)) := by
  constructor
  · intro scope A row s hmem hne
    exact insert_validated_address_owner_mismatch scope A row s hmem hne
  · intro t A na s pu hfind hne
    have h1 := insert_validated_address_owner_mismatch
      [Predicate.In Field.tenant_id [t], Predicate.Eq Field.owner_id A,
       Predicate.Eq Field.city_id na.city_id] A
      { id := na.id.getD s.next_id, tenant_id := pu.tenant_id,
        user_id := na.user_id, city_id := na.city_id,
        street := na.street, postal_code := na.postal_code } s (by simp) hne
    simp [create_address, hfind, owner_city_pdp, ctx_for_subject, addr_props,
      decision_matrix, tenant_baseline, List.lookup, field_beq_eq_decide, h1]

/-- Witness for C6: subject 1 attempting to create an address owned by
user 2 under the owner-echoing PDP gets Forbidden and nothing is
written. -/
theorem insert_scope_owner_violation_rejected_witness :
    create_address owner_city_pdp (ctx_for_subject 1 10) w_na store_owned
      = (Except.error DomainError.Forbidden, bump store_owned) :=
  insert_scope_owner_violation_rejected.2 10 1 w_na store_owned w_userB rfl
    (by decide)

lemma find?_none_of_forall {α : Type} (p : α → Bool) (l : List α)
    (h : ∀ x ∈ l, p x = false) : l.find? p = none := by
  induction l with
  | nil => rfl
  | cons x xs ih =>
    have hx := h x (List.mem_cons_self x xs)
    rw [List.find?_cons, hx]
    exact ih fun y hy => h y (List.mem_cons_of_mem x hy)

lemma find?_unique {α : Type} (p : α → Bool) (l : List α) (a : α)
    (ha : a ∈ l) (hpa : p a = true)
    (hu : ∀ b ∈ l, p b = true → b = a) : l.find? p = some a := by
  induction l with
  | nil => simp at ha
  | cons x xs ih =>
    cases hx : p x with
    | false =>
      rw [List.find?_cons, hx]
      rcases List.mem_cons.mp ha with h | h
      · exfalso
        rw [h] at hpa
        rw [hpa] at hx
        exact Bool.noConfusion hx
      · exact ih h fun b hb hpb => hu b (List.mem_cons_of_mem x hb) hpb
    | true =>
      rw [List.find?_cons, hx]
      exact congrArg some (hu x (List.mem_cons_self x xs) hx)

lemma filter_none_of_forall {α : Type} (p : α → Bool) (l : List α)
    (h : ∀ x ∈ l, p x = false) : l.filter p = [] := by
  induction l with
  | nil => rfl
  | cons x xs ih =>
    have hx := h x (List.mem_cons_self x xs)
    rw [List.filter_cons, hx]
    exact ih fun y hy => h y (List.mem_cons_of_mem x hy)

lemma filter_not_of_forall {α : Type} (p : α → Bool) (l : List α)
    (h : ∀ x ∈ l, p x = false) : l.filter (fun x => !(p x)) = l := by
  induction l with
  | nil => rfl
  | cons x xs ih =>
    have hx := h x (List.mem_cons_self x xs)
    rw [List.filter_cons]
    rw [show (!(p x)) = true from by rw [hx]; rfl]
    exact congrArg (List.cons x) (ih fun y hy => h y (List.mem_cons_of_mem x hy))

lemma map_ite_id_of_forall {α : Type} (p : α → Bool) (f : α → α) (l : List α)
    (h : ∀ x ∈ l, p x = false) :
    l.map (fun x => if p x then f x else x) = l := by
  induction l with
  | nil => rfl
  | cons x xs ih =>
    have hx := h x (List.mem_cons_self x xs)
    rw [List.map_cons, hx]
    exact congrArg (List.cons x) (ih fun y hy => h y (List.mem_cons_of_mem x hy))

lemma find?_append_of_none {α : Type} (p : α → Bool) (l1 l2 : List α)
    (h : l1.find? p = none) : (l1 ++ l2).find? p = l2.find? p := by
  induction l1 with
  | nil => rfl
  | cons x xs ih =>
    cases hx : p x with
    | true =>
      exfalso
      rw [List.find?_cons, hx] at h
      exact Option.noConfusion h
    | false =>
      rw [List.cons_append, List.find?_cons, hx]
      rw [List.find?_cons, hx] at h
      exact ih h

/-- The Decision Matrix outcome of the owner/city-echoing PDP for a
subject-and-tenant context over the properties of one address row. -/
lemma owner_city_matrix (A t : Nat) (a : AddressRow) :
    decision_matrix (owner_city_pdp (ctx_for_subject A t) (addr_props a)) true
        (ctx_for_subject A t)
      = DecisionOutcome.allow
          [Predicate.In Field.tenant_id [t], Predicate.Eq Field.owner_id A,
           Predicate.Eq Field.city_id a.city_id] := by
  simp [owner_city_pdp, ctx_for_subject, addr_props, decision_matrix,
    tenant_baseline, List.lookup, field_beq_eq_decide]

/-- A scoped delete whose target exists but where no row matches both the
key and the scope surfaces Forbidden and leaves the rows untouched. -/
lemma delete_address_out_of_scope (pdp : PolicyClient) (ctx : SecurityContext)
    (aid : Nat) (s : Store) (a : AddressRow) (scope : AccessScope)
    (hfa : find_address_by_id s aid = some a)
    (hm : decision_matrix (pdp ctx (addr_props a)) true ctx
        = DecisionOutcome.allow scope)
    (hout : ∀ b ∈ s.addresses,
        (b.id == aid && in_scope scope (address_field b)) = false) :
    delete_address pdp ctx aid s = (Except.error DomainError.Forbidden, bump s) := by
  have h0 := filter_none_of_forall _ _ hout
  have h1 := filter_not_of_forall _ _ hout
  simp [delete_address, hfa, hm, delete_scoped_address, h0, h1, bump]
  intro b hb
  have hb2 := hout b hb
  cases hid : (b.id == aid) with
  | true =>
    rw [hid, Bool.true_and] at hb2
    exact Or.inr hb2
  | false =>
    refine Or.inl ?_
    intro hEq
    rw [hEq] at hid
    simp at hid

/-- A scoped update (the `put_user_address` update path) whose target
exists but where no row matches both the key and the scope surfaces
Forbidden and leaves the rows untouched. -/
lemma put_user_address_out_of_scope (pdp : PolicyClient) (ctx : SecurityContext)
    (uid : Nat) (na : NewAddress) (s : Store) (pu : UserRow) (a : AddressRow)
    (scope : AccessScope)
    (hpu : find_user_by_id s uid = some pu)
    (hfa : find_address_by_user s uid = some a)
    (hm : decision_matrix (pdp ctx (addr_props a)) true ctx
        = DecisionOutcome.allow scope)
    (hout : ∀ b ∈ s.addresses,
        (b.id == a.id && in_scope scope (address_field b)) = false) :
    put_user_address pdp ctx uid na s
      = (Except.error DomainError.Forbidden, bump s) := by
  have hfind := find?_none_of_forall _ _ hout
  simp [put_user_address, hpu, hfa, hm, update_scoped_address, hfind]

/-- A scoped user update where no row matches both the key and the scope
surfaces Forbidden and leaves the rows untouched. -/
lemma update_user_out_of_scope (pdp : PolicyClient) (ctx : SecurityContext)
    (uid : Nat) (p : UserPatch) (s : Store) (scope : AccessScope)
    (hm : decision_matrix (pdp ctx []) true ctx = DecisionOutcome.allow scope)
    (hout : ∀ b ∈ s.users,
        (b.id == uid && in_scope scope (user_field b)) = false) :
    update_user pdp ctx uid p s = (Except.error DomainError.Forbidden, bump s) := by
  have hfind := find?_none_of_forall _ _ hout
  simp [update_user, hm, update_scoped_user, hfind]

/-- A scoped user delete where no row matches both the key and the scope
surfaces Forbidden and leaves the rows untouched. -/
lemma delete_user_out_of_scope (pdp : PolicyClient) (ctx : SecurityContext)
    (uid : Nat) (s : Store) (scope : AccessScope)
    (hm : decision_matrix (pdp ctx []) true ctx = DecisionOutcome.allow scope)
    (hout : ∀ b ∈ s.users,
        (b.id == uid && in_scope scope (user_field b)) = false) :
    delete_user pdp ctx uid s = (Except.error DomainError.Forbidden, bump s) := by
  have h0 := filter_none_of_forall _ _ hout
  have h1 := filter_not_of_forall _ _ hout
  simp [delete_user, hm, delete_scoped_user, h0, h1, bump]
  intro b hb
  have hb2 := hout b hb
  cases hid : (b.id == uid) with
  | true =>
    rw [hid, Bool.true_and] at hb2
    exact Or.inr hb2
  | false =>
    refine Or.inl ?_
    intro hEq
    rw [hEq] at hid
    simp at hid

/-- A scoped city update where no row matches both the key and the scope
surfaces Forbidden and leaves the rows untouched. -/
lemma update_city_out_of_scope (pdp : PolicyClient) (ctx : SecurityContext)
    (cid : Nat) (p : CityPatch) (s : Store) (scope : AccessScope)
    (hm : decision_matrix (pdp ctx []) true ctx = DecisionOutcome.allow scope)
    (hout : ∀ b ∈ s.cities,
        (b.id == cid && in_scope scope (city_field b)) = false) :
    update_city pdp ctx cid p s = (Except.error DomainError.Forbidden, bump s) := by
  have hfind := find?_none_of_forall _ _ hout
  simp [update_city, hm, update_scoped_city, hfind]

/-- A scoped city delete where no row matches both the key and the scope
surfaces Forbidden and leaves the rows untouched. -/
lemma delete_city_out_of_scope (pdp : PolicyClient) (ctx : SecurityContext)
    (cid : Nat) (s : Store) (scope : AccessScope)
    (hm : decision_matrix (pdp ctx []) true ctx = DecisionOutcome.allow scope)
    (hout : ∀ b ∈ s.cities,
        (b.id == cid && in_scope scope (city_field b)) = false) :
    delete_city pdp ctx cid s = (Except.error DomainError.Forbidden, bump s) := by
  have h0 := filter_none_of_forall _ _ hout
  have h1 := filter_not_of_forall _ _ hout
  simp [delete_city, hm, delete_scoped_city, h0, h1, bump]
  intro b hb
  have hb2 := hout b hb
  cases hid : (b.id == cid) with
  | true =>
    rw [hid, Bool.true_and] at hb2
    exact Or.inr hb2
  | false =>
    refine Or.inl ?_
    intro hEq
    rw [hEq] at hid
    simp at hid

/-- C7: under the owner-echoing PDP, a caller whose policy constraint is
`Eq(owner_id, A)` can neither delete nor update (via `put_user_address`)
an address owned by a different user: both operations fail with Forbidden
and touch no row, and a subsequent read by the row's true owner (on the
store as left by those failed operations) returns the row unchanged. -/
theorem owner_scope_mutation_fails_row_unchanged
    (t A : Nat) (s : Store) (a : AddressRow) (pu : UserRow) (na : NewAddress)
    (hfa : find_address_by_id s a.id = some a)
    (hfb : find_address_by_user s a.user_id = some a)
    (hpu : find_user_by_id s a.user_id = some pu)
    (huniq : ∀ b ∈ s.addresses, b.id = a.id → b = a)
    (hown : a.user_id ≠ A)
    (ht : a.tenant_id = t) :
    delete_address owner_city_pdp (ctx_for_subject A t) a.id s
      = (Except.error DomainError.Forbidden, bump s) ∧
    put_user_address owner_city_pdp (ctx_for_subject A t) a.user_id na (bump s)
      = (Except.error DomainError.Forbidden, bump (bump s)) ∧
    (get_user_address owner_city_pdp (ctx_for_subject a.user_id t) a.user_id
        (bump (bump s))).1 = Except.ok (some a) := by
  have hm := owner_city_matrix A t a
  have hascope : in_scope
      [Predicate.In Field.tenant_id [t], Predicate.Eq Field.owner_id A,
       Predicate.Eq Field.city_id a.city_id] (address_field a) = false := by
    refine in_scope_false_of_mem _ _ (Predicate.Eq Field.owner_id A) (by simp) ?_
    simp [pred_holds, address_field]
    exact hown
  have hout : ∀ b ∈ s.addresses,
      (b.id == a.id && in_scope
        [Predicate.In Field.tenant_id [t], Predicate.Eq Field.owner_id A,
         Predicate.Eq Field.city_id a.city_id] (address_field b)) = false := by
    intro b hb
    cases hid : (b.id == a.id) with
    | false => simp
    | true =>
      have hbid : b.id = a.id := by simpa using hid
      have hba : b = a := huniq b hb hbid
      rw [Bool.true_and, hba]
      exact hascope
  refine ⟨?_, ?_, ?_⟩
  · exact delete_address_out_of_scope owner_city_pdp (ctx_for_subject A t)
      a.id s a _ hfa hm hout
  · exact put_user_address_out_of_scope owner_city_pdp (ctx_for_subject A t)
      a.user_id na (bump s) pu a _ hpu hfb hm hout
  · have hmB := owner_city_matrix a.user_id t a
    have hinB : in_scope
        [Predicate.In Field.tenant_id [t], Predicate.Eq Field.owner_id a.user_id,
         Predicate.Eq Field.city_id a.city_id] (address_field a) = true := by
      simp [in_scope, pred_holds, address_field, ht]
    have hmem : a ∈ s.addresses := by
      have h2 := hfa
      rw [find_address_by_id] at h2
      exact List.mem_of_find?_eq_some h2
    have hfind : s.addresses.find?
        (fun b => b.id == a.id && in_scope
          [Predicate.In Field.tenant_id [t], Predicate.Eq Field.owner_id a.user_id,
           Predicate.Eq Field.city_id a.city_id] (address_field b)) = some a := by
      refine find?_unique _ _ a hmem ?_ ?_
      · simp [hinB]
      · intro b hb hpb
        simp at hpb
        exact huniq b hb hpb.1
    have hfb2 : find_address_by_user (bump (bump s)) a.user_id = some a := hfb
    have hfind2 : (bump (bump s)).addresses.find?
        (fun b => b.id == a.id && in_scope
          [Predicate.In Field.tenant_id [t], Predicate.Eq Field.owner_id a.user_id,
           Predicate.Eq Field.city_id a.city_id] (address_field b)) = some a := hfind
    simp [get_user_address, hfb2, hmB, find_scoped_address, hfind2]

/-- Witness for C7: subject 1 fails to delete and to overwrite the address
of user 2, and user 2's subsequent read returns the row unchanged. -/
theorem owner_scope_mutation_fails_row_unchanged_witness :
    delete_address owner_city_pdp (ctx_for_subject 1 10) w_addrB.id store_owned
      = (Except.error DomainError.Forbidden, bump store_owned) ∧
    put_user_address owner_city_pdp (ctx_for_subject 1 10) w_addrB.user_id w_na
        (bump store_owned)
      = (Except.error DomainError.Forbidden, bump (bump store_owned)) ∧
    (get_user_address owner_city_pdp (ctx_for_subject w_addrB.user_id 10)
        w_addrB.user_id (bump (bump store_owned))).1 = Except.ok (some w_addrB) :=
  owner_scope_mutation_fails_row_unchanged 10 1 store_owned w_addrB w_userB w_na
    rfl rfl rfl (by intro b hb _; simpa [store_owned] using hb) (by decide) rfl

/-- C8: every scoped update or delete whose target row exists but falls
outside the computed AccessScope affects zero rows and surfaces as
Forbidden (not NotFound), with the store's rows untouched — covering the
address delete, the `put_user_address` update path, and the scoped user
and city updates and deletes. -/
theorem scoped_zero_rows_mutation_is_forbidden :
    (∀ (pdp : PolicyClient) (ctx : SecurityContext) (aid : Nat) (s : Store)
        (a : AddressRow) (scope : AccessScope),
        find_address_by_id s aid = some a →
        decision_matrix (pdp ctx (addr_props a)) true ctx
          = DecisionOutcome.allow scope →
        (∀ b ∈ s.addresses,
          (b.id == aid && in_scope scope (address_field b)) = false) →
        delete_address pdp ctx aid s
          = (Except.error DomainError.Forbidden, bump s)) ∧
    (∀ (pdp : PolicyClient) (ctx : SecurityContext) (uid : Nat)
        (na : NewAddress) (s : Store) (pu : UserRow) (a : AddressRow)
        (scope : AccessScope),
        find_user_by_id s uid = some pu →
        find_address_by_user s uid = some a →
        decision_matrix (pdp ctx (addr_props a)) true ctx
          = DecisionOutcome.allow scope →
        (∀ b ∈ s.addresses,
          (b.id == a.id && in_scope scope (address_field b)) = false) →
        put_user_address pdp ctx uid na s
          = (Except.error DomainError.Forbidden, bump s)) ∧
    (∀ (pdp : PolicyClient) (ctx : SecurityContext) (uid : Nat) (p : UserPatch)
        (s : Store) (u : UserRow) (scope : AccessScope),
        u ∈ s.users → u.id = uid →
        decision_matrix (pdp ctx []) true ctx = DecisionOutcome.allow scope →
        (∀ b ∈ s.users,
          (b.id == uid && in_scope scope (user_field b)) = false) →
        update_user pdp ctx uid p s
          = (Except.error DomainError.Forbidden, bump s)) ∧
    (∀ (pdp : PolicyClient) (ctx : SecurityContext) (uid : Nat) (s : Store)
        (u : UserRow) (scope : AccessScope),
        u ∈ s.users → u.id = uid →
        decision_matrix (pdp ctx []) true ctx = DecisionOutcome.allow scope →
        (∀ b ∈ s.users,
          (b.id == uid && in_scope scope (user_field b)) = false) →
        delete_user pdp ctx uid s
          = (Except.error DomainError.Forbidden, bump s)) ∧
    (∀ (pdp : PolicyClient) (ctx : SecurityContext) (cid : Nat) (p : CityPatch)
        (s : Store) (c : CityRow) (scope : AccessScope),
        c ∈ s.cities → c.id = cid →
        decision_matrix (pdp ctx []) true ctx = DecisionOutcome.allow scope →
        (∀ b ∈ s.cities,
          (b.id == cid && in_scope scope (city_field b)) = false) →
        update_city pdp ctx cid p s
          = (Except.error DomainError.Forbidden, bump s)) ∧
    (∀ (pdp : PolicyClient) (ctx : SecurityContext) (cid : Nat) (s : Store)
        (c : CityRow) (scope : AccessScope),
        c ∈ s.cities → c.id = cid →
        decision_matrix (pdp ctx []) true ctx = DecisionOutcome.allow scope →
        (∀ b ∈ s.cities,
          (b.id == cid && in_scope scope (city_field b)) = false) →
        delete_city pdp ctx cid s
          = (Except.error DomainError.Forbidden, bump s)) :=
  ⟨fun pdp ctx aid s a scope hfa hm hout =>
      delete_address_out_of_scope pdp ctx aid s a scope hfa hm hout,
   fun pdp ctx uid na s pu a scope hpu hfa hm hout =>
      put_user_address_out_of_scope pdp ctx uid na s pu a scope hpu hfa hm hout,
   fun pdp ctx uid p s _u scope _ _ hm hout =>
      update_user_out_of_scope pdp ctx uid p s scope hm hout,
   fun pdp ctx uid s _u scope _ _ hm hout =>
      delete_user_out_of_scope pdp ctx uid s scope hm hout,
   fun pdp ctx cid p s _c scope _ _ hm hout =>
      update_city_out_of_scope pdp ctx cid p s scope hm hout,
   fun pdp ctx cid s _c scope _ _ hm hout =>
      delete_city_out_of_scope pdp ctx cid s scope hm hout⟩

/-- Witness for C8: on concrete stores, the out-of-scope delete of the
existing address 50 surfaces Forbidden, and so do the update and delete of
the existing but out-of-tenant-scope user 2 and city 7. -/
theorem scoped_zero_rows_mutation_is_forbidden_witness :
    (delete_address owner_city_pdp (ctx_for_subject 1 10) 50 store_owned
      = (Except.error DomainError.Forbidden, bump store_owned)) ∧
    (update_user allow_all_pdp (ctx_allow_tenants [10]) 2 w_patch store_mixed
      = (Except.error DomainError.Forbidden, bump store_mixed)) ∧
    (delete_user allow_all_pdp (ctx_allow_tenants [10]) 2 store_mixed
      = (Except.error DomainError.Forbidden, bump store_mixed)) ∧
    (update_city allow_all_pdp (ctx_allow_tenants [10]) 7 w_city_patch store_mixed
      = (Except.error DomainError.Forbidden, bump store_mixed)) ∧
    (delete_city allow_all_pdp (ctx_allow_tenants [10]) 7 store_mixed
      = (Except.error DomainError.Forbidden, bump store_mixed)) :=
  ⟨scoped_zero_rows_mutation_is_forbidden.1 owner_city_pdp (ctx_for_subject 1 10)
    50 store_owned w_addrB
    [Predicate.In Field.tenant_id [10], Predicate.Eq Field.owner_id 1,
     Predicate.Eq Field.city_id 5]
    rfl rfl (by decide),
   scoped_zero_rows_mutation_is_forbidden.2.2.1 allow_all_pdp
    (ctx_allow_tenants [10]) 2 w_patch store_mixed w_user2
    [Predicate.In Field.tenant_id [10], Predicate.In Field.tenant_id [10]]
    (by simp [store_mixed]) rfl rfl (by decide),
   scoped_zero_rows_mutation_is_forbidden.2.2.2.1 allow_all_pdp
    (ctx_allow_tenants [10]) 2 store_mixed w_user2
    [Predicate.In Field.tenant_id [10], Predicate.In Field.tenant_id [10]]
    (by simp [store_mixed]) rfl rfl (by decide),
   scoped_zero_rows_mutation_is_forbidden.2.2.2.2.1 allow_all_pdp
    (ctx_allow_tenants [10]) 7 w_city_patch store_mixed w_city2
    [Predicate.In Field.tenant_id [10], Predicate.In Field.tenant_id [10]]
    (by simp [store_mixed]) rfl rfl (by decide),
   scoped_zero_rows_mutation_is_forbidden.2.2.2.2.2 allow_all_pdp
    (ctx_allow_tenants [10]) 7 store_mixed w_city2
    [Predicate.In Field.tenant_id [10], Predicate.In Field.tenant_id [10]]
    (by simp [store_mixed]) rfl rfl (by decide)⟩

lemma forall_false_of_find?_none {α : Type} (p : α → Bool) (l : List α)
    (h : l.find? p = none) : ∀ x ∈ l, p x = false := by
  induction l with
  | nil => intro x hx; simp at hx
  | cons y ys ih =>
    cases hy : p y with
    | true =>
      exfalso
      rw [List.find?_cons, hy] at h
      exact Option.noConfusion h
    | false =>
      rw [List.find?_cons, hy] at h
      intro x hx
      rcases List.mem_cons.mp hx with h2 | h2
      · rw [h2]
        exact hy
      · exact ih h x h2

/-- The Decision Matrix outcome of the permissive tenant-echoing PDP for a
single-tenant context: allow, with the tenant baseline and the echoed
tenant constraint. -/
lemma allow_all_matrix (t : Nat) (props : List (Field × Nat)) :
    decision_matrix (allow_all_pdp (ctx_allow_tenants [t]) props) true
        (ctx_allow_tenants [t])
      = DecisionOutcome.allow
          [Predicate.In Field.tenant_id [t], Predicate.In Field.tenant_id [t]] := by
  simp [allow_all_pdp, ctx_allow_tenants, decision_matrix, tenant_baseline]

/-- C9: issuing `put_user_address` twice for the same user (under the
permissive PDP, on a store where that user has no address yet and the
generated id is fresh) creates on the first call and updates the same row
on the second: the second result has the same id, carries the second
call's street and postal code, and the user still has exactly one address
row. -/
theorem put_user_address_idempotent_identity
    (t uid : Nat) (s : Store) (u : UserRow) (na1 na2 : NewAddress)
    (hu : find_user_by_id s uid = some u)
    (hut : u.tenant_id = t)
    (hnone : find_address_by_user s uid = none)
    (hid1 : na1.id = none)
    (hfresh : ∀ b ∈ s.addresses, b.id ≠ s.next_id) :
    ∃ a1 s1 a2 s2,
      put_user_address allow_all_pdp (ctx_allow_tenants [t]) uid na1 s
        = (Except.ok a1, s1) ∧
      put_user_address allow_all_pdp (ctx_allow_tenants [t]) uid na2 s1
        = (Except.ok a2, s2) ∧
      a1.user_id = uid ∧ a2.id = a1.id ∧ a2.street = na2.street ∧
      a2.postal_code = na2.postal_code ∧
      (s2.addresses.filter (fun b => b.user_id == uid)).length = 1 := by
  have hnone0 : s.addresses.find? (fun b => b.user_id == uid) = none := hnone
  refine ⟨{ id := s.next_id, tenant_id := u.tenant_id, user_id := uid,
            city_id := na1.city_id, street := na1.street,
            postal_code := na1.postal_code },
          { users := s.users, cities := s.cities,
            addresses := s.addresses ++
              [{ id := s.next_id, tenant_id := u.tenant_id, user_id := uid,
                 city_id := na1.city_id, street := na1.street,
                 postal_code := na1.postal_code }],
            next_id := s.next_id + 1,
            scoped_accesses := s.scoped_accesses + 1 },
          { id := s.next_id, tenant_id := u.tenant_id, user_id := uid,
            city_id := na2.city_id, street := na2.street,
            postal_code := na2.postal_code },
          { users := s.users, cities := s.cities,
            addresses := s.addresses ++
              [{ id := s.next_id, tenant_id := u.tenant_id, user_id := uid,
                 city_id := na2.city_id, street := na2.street,
                 postal_code := na2.postal_code }],
            next_id := s.next_id + 1,
            scoped_accesses := s.scoped_accesses + 2 },
          ?_, ?_, rfl, rfl, rfl, rfl, ?_⟩
  · simp [put_user_address, hu, hnone, hid1, allow_all_matrix,
      insert_validated_address, in_scope, pred_holds, address_field, hut, bump]
  · have hu2 : find_user_by_id
        { users := s.users, cities := s.cities,
          addresses := s.addresses ++
            [{ id := s.next_id, tenant_id := u.tenant_id, user_id := uid,
               city_id := na1.city_id, street := na1.street,
               postal_code := na1.postal_code }],
          next_id := s.next_id + 1,
          scoped_accesses := s.scoped_accesses + 1 } uid = some u := hu
    have hfa2 : find_address_by_user
        { users := s.users, cities := s.cities,
          addresses := s.addresses ++
            [{ id := s.next_id, tenant_id := u.tenant_id, user_id := uid,
               city_id := na1.city_id, street := na1.street,
               postal_code := na1.postal_code }],
          next_id := s.next_id + 1,
          scoped_accesses := s.scoped_accesses + 1 } uid
        = some { id := s.next_id, tenant_id := u.tenant_id, user_id := uid,
                 city_id := na1.city_id, street := na1.street,
                 postal_code := na1.postal_code } := by
      show (s.addresses ++ _).find? _ = _
      rw [find?_append_of_none _ _ _ hnone0]
      simp [List.find?_cons]
    have hl : ∀ b ∈ s.addresses,
        (b.id == s.next_id && in_scope
          [Predicate.In Field.tenant_id [t], Predicate.In Field.tenant_id [t]]
          (address_field b)) = false := by
      intro b hb
      have hb2 : (b.id == s.next_id) = false := by simpa using hfresh b hb
      rw [hb2]
      rfl
    have hfind2 : (s.addresses ++
        [({ id := s.next_id, tenant_id := u.tenant_id, user_id := uid,
            city_id := na1.city_id, street := na1.street,
            postal_code := na1.postal_code } : AddressRow)]).find?
          (fun b => b.id == s.next_id && in_scope
            [Predicate.In Field.tenant_id [t], Predicate.In Field.tenant_id [t]]
            (address_field b))
        = some { id := s.next_id, tenant_id := u.tenant_id, user_id := uid,
                 city_id := na1.city_id, street := na1.street,
                 postal_code := na1.postal_code } := by
      rw [find?_append_of_none _ _ _ (find?_none_of_forall _ _ hl)]
      simp [List.find?_cons, in_scope, pred_holds, address_field, hut]
    have hmap2 : (s.addresses ++
        [({ id := s.next_id, tenant_id := u.tenant_id, user_id := uid,
            city_id := na1.city_id, street := na1.street,
            postal_code := na1.postal_code } : AddressRow)]).map
          (fun v => if v.id == s.next_id && in_scope
            [Predicate.In Field.tenant_id [t], Predicate.In Field.tenant_id [t]]
            (address_field v)
            then { v with city_id := na2.city_id, street := na2.street,
                          postal_code := na2.postal_code } else v)
        = s.addresses ++
          [{ id := s.next_id, tenant_id := u.tenant_id, user_id := uid,
             city_id := na2.city_id, street := na2.street,
             postal_code := na2.postal_code }] := by
      rw [List.map_append]
      rw [map_ite_id_of_forall _ _ _ hl]
      simp [in_scope, pred_holds, address_field, hut]
    simp only [put_user_address, hu2, hfa2, allow_all_matrix,
      update_scoped_address, hfind2, hmap2, bump]
  · rw [List.filter_append]
    rw [filter_none_of_forall _ _ (forall_false_of_find?_none _ _ hnone0)]
    simp

/-- Witness for C9: two PUTs for user 1 on the fresh store create then
update the same address row. -/
theorem put_user_address_idempotent_identity_witness :
    ∃ a1 s1 a2 s2,
      put_user_address allow_all_pdp (ctx_allow_tenants [10]) 1 w_put1 store_fresh
        = (Except.ok a1, s1) ∧
      put_user_address allow_all_pdp (ctx_allow_tenants [10]) 1 w_put2 s1
        = (Except.ok a2, s2) ∧
      a1.user_id = 1 ∧ a2.id = a1.id ∧ a2.street = w_put2.street ∧
      a2.postal_code = w_put2.postal_code ∧
      (s2.addresses.filter (fun b => b.user_id == 1)).length = 1 :=
  put_user_address_idempotent_identity 10 1 store_fresh w_user1 w_put1 w_put2
    rfl rfl rfl rfl (by simp [store_fresh])

/-- C10: a scoped update evaluates the AccessScope only against the row's
pre-update values (the WHERE clause of the update); the new values are not
validated, so an update whose written values violate a scope constraint
succeeds whenever the existing row satisfies the scope.  Stated at the
storage level (any row found under the scope is updated, even when the
updated row falls outside the scope) and at the service level (under the
city-echoing PDP, the owner moves the address to a different city even
though the computed scope pins `Eq(city_id, old city)`). -/
theorem scoped_update_checks_preimage_only :
    (∀ (key : Nat) (f : AddressRow → AddressRow) (scope : AccessScope)
        (s : Store) (b : AddressRow),
        s.addresses.find?
          (fun c => c.id == key && in_scope scope (address_field c)) = some b →
        in_scope scope (address_field (f b)) = false →
        (update_scoped_address key f scope s).1 = some (f b)) ∧
    (∀ (t uid : Nat) (s : Store) (a : AddressRow) (pu : UserRow)
        (na : NewAddress),
        find_user_by_id s uid = some pu →
        find_address_by_user s uid = some a →
        a.user_id = uid →
        a.tenant_id = t →
        (∀ b ∈ s.addresses, b.id = a.id → b = a) →
        na.city_id ≠ a.city_id →
        (put_user_address owner_city_pdp (ctx_for_subject uid t) uid na s).1
            = Except.ok { a with city_id := na.city_id, street := na.street,
                                 postal_code := na.postal_code } ∧
          pred_holds
            (address_field { a with city_id := na.city_id, street := na.street,
                                    postal_code := na.postal_code })
            (Predicate.Eq Field.city_id a.city_id) = false ∧
          decision_matrix (owner_city_pdp (ctx_for_subject uid t) (addr_props a))
              true (ctx_for_subject uid t)
            = DecisionOutcome.allow
                [Predicate.In Field.tenant_id [t],
                 Predicate.Eq Field.owner_id uid,
                 Predicate.Eq Field.city_id a.city_id]) := by
  constructor
  · intro key f scope s b hfind hviol
    simp [update_scoped_address, hfind]
  · intro t uid s a pu na hpu hfa hau hat huniq hcity
    have hm := owner_city_matrix uid t a
    have hin : in_scope
        [Predicate.In Field.tenant_id [t], Predicate.Eq Field.owner_id uid,
         Predicate.Eq Field.city_id a.city_id] (address_field a) = true := by
      simp [in_scope, pred_holds, address_field, hat, hau]
    have hmem : a ∈ s.addresses := by
      have h2 := hfa
      rw [find_address_by_user] at h2
      exact List.mem_of_find?_eq_some h2
    have hfind : s.addresses.find?
        (fun b => b.id == a.id && in_scope
          [Predicate.In Field.tenant_id [t], Predicate.Eq Field.owner_id uid,
           Predicate.Eq Field.city_id a.city_id] (address_field b)) = some a := by
      refine find?_unique _ _ a hmem ?_ ?_
      · simp [hin]
      · intro b hb hpb
        simp at hpb
        exact huniq b hb hpb.1
    refine ⟨?_, ?_, hm⟩
    · simp only [put_user_address, hpu, hfa, hm, update_scoped_address, hfind]
    · simp [pred_holds, address_field, hcity]

/-- Witness for C10: user 1 moves their address from city 5 to city 7
although the echoed scope constrains `city_id` to 5. -/
theorem scoped_update_checks_preimage_only_witness :
    (put_user_address owner_city_pdp (ctx_for_subject 1 10) 1 w_put_city
        store_city).1
      = Except.ok { w_addr1 with city_id := w_put_city.city_id,
                                 street := w_put_city.street,
                                 postal_code := w_put_city.postal_code } ∧
    pred_holds
      (address_field { w_addr1 with city_id := w_put_city.city_id,
                                    street := w_put_city.street,
                                    postal_code := w_put_city.postal_code })
      (Predicate.Eq Field.city_id w_addr1.city_id) = false ∧
    decision_matrix (owner_city_pdp (ctx_for_subject 1 10) (addr_props w_addr1))
        true (ctx_for_subject 1 10)
      = DecisionOutcome.allow
          [Predicate.In Field.tenant_id [10], Predicate.Eq Field.owner_id 1,
           Predicate.Eq Field.city_id w_addr1.city_id] :=
  scoped_update_checks_preimage_only.2 10 1 store_city w_addr1 w_user1 w_put_city
    rfl rfl rfl rfl (by intro b hb _; simpa [store_city] using hb) (by decide)

end UsersInfo
